import Mathlib

/-!
Verification of the on-request transcription job workflow.

This file gives a shallow embedding of the core of the repository:
the call validator and job-id generator (`handler.py`), the search
client's error classification (`elasticsearch.py`), the job state
writer (`updater.py`), the metadata fetcher / event publisher
(`publisher.py`, `mapper.py`), and the response decorator
(`common/decorater.py`), together with theorems about them.

External effects (search queries, store writes, queue sends) are
modelled as functions supplied through an environment record, and the
orchestrator records each adapter invocation in an explicit trace.
-/

/-- Exception classes raised by the embedded code.  `accessDenied`,
`validationErr`, `configuration` and `sqs` are the classes named in the
handler's `error_status` table; `esFailed` is
`ElasticsearchFailedRequestError`; `pydanticValidation` is pydantic's
`ValidationError`, which the decorator catches explicitly; `other` stands
for any exception class not in the table (e.g. a boto3 client error). -/
inductive ExnClass
  | accessDenied
  | validationErr
  | configuration
  | sqs
  | esFailed
  | pydanticValidation
  | other
  deriving DecidableEq, Repr

/-- A raised Python exception: its class and its message string. -/
structure PyExn where
  cls : ExnClass
  msg : String
  deriving DecidableEq, Repr

/-- Python `repr` of a list of strings, as interpolated into an f-string:
`[]` for the empty list, otherwise the quoted elements joined by a comma
and a space. -/
def pyReprStrList : List String → String
  | [] => "[]"
  | xs => "[" ++ String.intercalate ", " (xs.map (fun s => "\x27" ++ s ++ "\x27")) ++ "]"

/-- Equality test of the Python sets built from two lists (Python
`set(l1) == set(l2)`): mutual containment of elements. -/
def pySetEqB (l1 l2 : List String) : Bool :=
  l1.all (fun x => l2.contains x) && l2.all (fun x => l1.contains x)

/-- Python `list(set(l1) - set(l2))`: the elements of `l1` that are not in
`l2`, deduplicated.  Python's set iteration order is unspecified; it is
modelled here as first-occurrence order. -/
def pySetDiff (l1 l2 : List String) : List String :=
  l1.dedup.filter (fun x => !l2.contains x)

/-- The call-access-restriction query produced by
`CallAccessRestrictionQueryParameter.create_query` (built outside the
embedded core); its contents are opaque to the validator, which only
embeds it into the search query. -/
structure AccessQuery where
  raw : String
  deriving DecidableEq, Repr

/-- One clause of the `bool.must` array of a search query body. -/
inductive QueryFilter
  | rangeCreatedAtGteNow1y
  | termsId (ids : List String)
  | matchTranscribed (value : Bool)
  | accessRestriction (q : AccessQuery)
  | idsValues (ids : List String)
  deriving DecidableEq, Repr

/-- A search request body: the `_source` field list, the `bool.must`
clauses, and the `size` parameter. -/
structure SearchQuery where
  _source : List String
  must : List QueryFilter
  size : Nat
  deriving DecidableEq, Repr

/-- The query dict built inline in `validate_calls_id_es`
(handler.py lines 40-53). -/
def validation_query (call_ids : List String) (call_access_restriction_query : AccessQuery) :
    SearchQuery :=
  { _source := ["_id"]
  , must :=
      [ .rangeCreatedAtGteNow1y
      , .termsId call_ids
      , .matchTranscribed false
      , .accessRestriction call_access_restriction_query ]
  , size := call_ids.length }

/-- The per-call document fields stored in the search index, as declared
by `CallMetadata` in mapper.py (without the derived `sid` / `wav_url`). -/
structure CallSource where
  original_contact_id : String
  duration : Int
  total_hold_time : Int
  start_datetime : String
  end_datetime : String
  agent_pbxid : String
  extension : String
  agent_full_name : String
  agent_email : String
  language : String
  region : String
  distributor_number : String
  call_context : String
  line_of_business : String
  video_recorded : Bool
  customer_phone_number : String
  call_direction : String
  organization_unit : String
  queue_id : String
  company_number : String
  filename_prefix : String
  created_at_ : String
  deriving DecidableEq, Repr

/-- One hit of a search response: `record["_id"]` and
`record["_source"]`.  (For the validation query only `_id` is requested;
the source part is simply unused there.) -/
structure ESHit where
  _id : String
  _source : CallSource
  deriving DecidableEq, Repr

/-- A search response, reduced to `response["hits"]["hits"]`. -/
structure ESResponse where
  hits : List ESHit
  deriving DecidableEq, Repr

/-- The set comparison and raise of `validate_calls_id_es`
(handler.py lines 56-62), after the search returned the hit ids:
if the hit-id set differs from the requested-id set, raise
`ValidationError` listing `set(call_ids) - set(es_call_ids)`. -/
def validateHits (call_ids : List String) (es_call_ids : List String) : Except PyExn Unit :=
  if pySetEqB es_call_ids call_ids = false then
    let invalid_call_ids := pySetDiff call_ids es_call_ids
    .error ⟨.validationErr, "Invalid call_ids: " ++ pyReprStrList invalid_call_ids⟩
  else
    .ok ()

/-- `validate_calls_id_es` (handler.py lines 33-62): build the validation
query, run the search, collect the hit ids, and compare them as sets
against the requested ids.  The search call is supplied as a function
`search index query`; a raised search exception propagates. -/
def validate_calls_id_es
    (search : String → SearchQuery → Except PyExn ESResponse)
    (es_index : String) (call_ids : List String)
    (call_access_restriction_query : AccessQuery) : Except PyExn Unit :=
  match search es_index (validation_query call_ids call_access_restriction_query) with
  | .error e => .error e
  | .ok es_response =>
      validateHits call_ids (es_response.hits.map ESHit._id)

/-- A raw HTTP response from the search index: its status code and its
body text. -/
structure HttpResponseRaw where
  status_code : Nat
  text : String
  deriving DecidableEq, Repr

/-- The outcome of `session.request` inside `ElasticSearchV2.__request`:
either a response arrived, or some exception (connection failure,
serialization error, ...) was raised with a message. -/
inductive RequestOutcome
  | response (r : HttpResponseRaw)
  | exn (msg : String)
  deriving DecidableEq, Repr

/-- `requests`' `Response.raise_for_status`: raises `HTTPError` exactly
for status codes in 400-599. -/
def raise_for_status_raises (r : HttpResponseRaw) : Bool :=
  decide (400 ≤ r.status_code) && decide (r.status_code < 600)

/-- `ElasticSearchV2.__request` (elasticsearch.py lines 75-103): issue the
request; on `HTTPError` from `raise_for_status`, a 403 status raises
`AccessDeniedError` and any other error status raises
`ElasticsearchFailedRequestError` with the status and body; any other
exception raises `ElasticsearchFailedRequestError` with its message; an
un-raised response is returned. -/
def ElasticSearchV2.requestRaw (outcome : RequestOutcome) : Except PyExn HttpResponseRaw :=
  match outcome with
  | .exn msg =>
      .error ⟨.esFailed, "Error with Elasticsearch server: " ++ msg⟩
  | .response r =>
      if raise_for_status_raises r then
        if r.status_code = 403 then
          .error ⟨.accessDenied, "403 Forbidden: Access to Elasticsearch denied."⟩
        else
          .error ⟨.esFailed,
            "HTTP error " ++ toString r.status_code ++ " from Elasticsearch: " ++ r.text⟩
      else
        .ok r

/-- A naive `datetime` value as produced by `datetime.utcnow()`. -/
structure PyDatetime where
  year : Nat
  month : Nat
  day : Nat
  hour : Nat
  minute : Nat
  second : Nat
  deriving DecidableEq, Repr

/-- Zero-pad a number to two digits, as `datetime.isoformat` does. -/
def pad2 (n : Nat) : String :=
  if n < 10 then "0" ++ toString n else toString n

/-- Zero-pad a year to four digits, as `datetime.isoformat` does. -/
def pad4 (n : Nat) : String :=
  if n < 10 then "000" ++ toString n
  else if n < 100 then "00" ++ toString n
  else if n < 1000 then "0" ++ toString n
  else toString n

/-- `datetime.isoformat(timespec="seconds")` on a naive UTC datetime:
`YYYY-MM-DDTHH:MM:SS`, with no timezone suffix. -/
def PyDatetime.isoformatSeconds (d : PyDatetime) : String :=
  pad4 d.year ++ "-" ++ pad2 d.month ++ "-" ++ pad2 d.day ++ "T" ++
    pad2 d.hour ++ ":" ++ pad2 d.minute ++ ":" ++ pad2 d.second

/-- Lowercase hexadecimal digit, the alphabet of `str(uuid.uuid4())`
outside the hyphens. -/
def isHexDigitChar (c : Char) : Bool :=
  c.isDigit || (decide ('a' ≤ c) && decide (c ≤ 'f'))

/-- The canonical textual form of a UUID4 as produced by
`str(uuid.uuid4())`: 36 characters, hyphens at positions 8, 13, 18 and
23, lowercase hex digits everywhere else. -/
def isCanonicalUUID4Str (s : String) : Bool :=
  let cs := s.data
  decide (cs.length = 36) &&
  (cs.take 8).all isHexDigitChar &&
  ((cs.drop 8).take 1 == ['-']) &&
  ((cs.drop 9).take 4).all isHexDigitChar &&
  ((cs.drop 13).take 1 == ['-']) &&
  ((cs.drop 14).take 4).all isHexDigitChar &&
  ((cs.drop 18).take 1 == ['-']) &&
  ((cs.drop 19).take 4).all isHexDigitChar &&
  ((cs.drop 23).take 1 == ['-']) &&
  (cs.drop 24).all isHexDigitChar

/-- `generate_job_id` (handler.py lines 65-67), with the fresh UUID4
string and the current UTC time supplied as inputs:
`f"job_{str(uuid.uuid4())[:8]}_{now.isoformat(timespec='seconds')}"`. -/
def generate_job_id (uuid4_str : String) (now : PyDatetime) : String :=
  "job_" ++ uuid4_str.take 8 ++ "_" ++ PyDatetime.isoformatSeconds now

/-- Modelled from the spec: `TranscribeJobStatus.IN_PROGRESS` comes from
`common.models.transcribe_on_request`, which is not among the sources;
the spec fixes the status of newly created records to `IN_PROGRESS`. -/
def TranscribeJobStatus.IN_PROGRESS : String := "IN_PROGRESS"

/-- One record of the durable job table (`TranscribeOnRequestJob`). -/
structure TranscribeOnRequestJob where
  callId : String
  jobId : String
  userId : String
  lastUpdate : Nat
  expireAt : Nat
  status : String
  deriving DecidableEq, Repr

/-- Modelled from the spec: `convert_datetime_to_epoch_time` from
`common.admin.dynamodb_mapper` is not among the sources; per the spec it
is the single creation timestamp in epoch seconds, supplied here as the
current epoch time. -/
def convert_datetime_to_epoch_time (epoch_now : Nat) : Nat := epoch_now

/-- Modelled from the spec: `create_epoch_time_to_live` from
`common.admin.dynamodb_mapper` is not among the sources; per the spec it
is `now + daysToExpire` days, in epoch seconds. -/
def create_epoch_time_to_live (epoch_now : Nat) (days_to_expire : Nat) : Nat :=
  epoch_now + days_to_expire * 86400

/-- `OnRequestJobUpdater.__create_transcribe_job` (updater.py lines
25-35): the record constructor for one call id. -/
def create_transcribe_job (job_id : String) (user_email : String)
    (last_update : Nat) (expire_at : Nat) : String → TranscribeOnRequestJob :=
  fun call_id =>
    { callId := call_id
    , jobId := job_id
    , userId := user_email
    , lastUpdate := last_update
    , expireAt := expire_at
    , status := TranscribeJobStatus.IN_PROGRESS }

/-- `OnRequestJobUpdater.__call__` (updater.py lines 37-51): compute one
creation timestamp and one TTL timestamp, then build one record per call
id; the resulting batch is handed to `dynamodb_mapper.write_batch`. -/
def OnRequestJobUpdater.run (epoch_now : Nat) (job_id : String)
    (call_ids : List String) (user_email : String) (days_to_expire : Nat) :
    List TranscribeOnRequestJob :=
  let epoch_time := convert_datetime_to_epoch_time epoch_now
  let epoch_ttl := create_epoch_time_to_live epoch_now days_to_expire
  call_ids.map (create_transcribe_job job_id user_email epoch_time epoch_ttl)

/-- `CallMetadata` (mapper.py): the call document fields plus the
optional `sid` and `wav_url`, which the publisher's merge fills in. -/
structure CallMetadata extends CallSource where
  sid : Option String
  wav_url : Option String
  deriving DecidableEq, Repr

/-- `list(CallMetadata.model_fields.keys())`: the `_source` field list of
the publisher's query, in declaration order. -/
def call_metadata_fields : List String :=
  [ "sid", "original_contact_id", "duration", "total_hold_time",
    "start_datetime", "end_datetime", "agent_pbxid", "extension",
    "agent_full_name", "agent_email", "language", "region",
    "distributor_number", "call_context", "line_of_business",
    "video_recorded", "customer_phone_number", "call_direction",
    "organization_unit", "queue_id", "company_number", "wav_url",
    "filename_prefix", "created_at_" ]

/-- `OnRequestJobPublisher.__prepare_es_query` (publisher.py lines
44-60). -/
def prepare_es_query (call_ids : List String) : SearchQuery :=
  { _source := call_metadata_fields
  , must :=
      [ .rangeCreatedAtGteNow1y
      , .idsValues call_ids
      , .matchTranscribed false ]
  , size := call_ids.length }

/-- `OnRequestJobPublisher.__build_wav_url` (publisher.py lines 62-63):
`f"s3://{self.audio_source_bucket}/{self.audio_source_prefix}/{filename_prefix}.wav"`. -/
def build_wav_url (bucket : String) (pfx : String) (fname : String) : String :=
  "s3://" ++ bucket ++ "/" ++ pfx ++ "/" ++ fname ++ ".wav"

/-- The merge step of `OnRequestJobPublisher.__get_metadata_from_es`
(publisher.py lines 33-42): each hit's source fields, `sid` set to the
document id, and `wav_url` derived from the record's filename. -/
def get_metadata_from_es (bucket : String) (pfx : String) (hits : List ESHit) :
    List CallMetadata :=
  hits.map fun es_doc =>
    { toCallSource := es_doc._source
    , sid := some es_doc._id
    , wav_url := some (build_wav_url bucket pfx (CallSource.filename_prefix es_doc._source)) }

/-- `OnRequestEventModel` (mapper.py): one outbound event. -/
structure OnRequestEventModel where
  on_request_job_id : Option String
  on_request_job_user : String
  call_metadata : CallMetadata
  deriving DecidableEq, Repr

/-- One queued message, reduced to the single merged record inside its
`{"Records": [merged]}` JSON body (`to_sqs_message` in mapper.py); the
JSON envelope and the empty `attributes` dict carry no further data. -/
structure SqsMessage where
  record : CallMetadata
  on_request_job_id : Option String
  on_request_job_user : String
  deriving DecidableEq, Repr

/-- `OnRequestEventModel.to_sqs_message` (mapper.py): merge the call
metadata with the job id and user (the `wav_url` entry re-set by the
merge equals the metadata's own `wav_url`). -/
def OnRequestEventModel.to_sqs_message (e : OnRequestEventModel) : SqsMessage :=
  { record := e.call_metadata
  , on_request_job_id := e.on_request_job_id
  , on_request_job_user := e.on_request_job_user }

/-- The handler's `error_status` tuple (handler.py lines 91-96). -/
def error_status_map : List (ExnClass × Nat) :=
  [ (.accessDenied, 403)
  , (.validationErr, 400)
  , (.configuration, 500)
  , (.sqs, 500) ]

/-- The decorator's status-code resolution (decorater.py line 59-60):
first entry of the map matching the exception's class chain, else the
500 default.  The embedded exception classes are direct subclasses of
`Exception`, so the chain lookup reduces to a lookup of the class
itself. -/
def resolve_status (m : List (ExnClass × Nat)) (c : ExnClass) : Nat :=
  match m.find? (fun p => decide (p.1 = c)) with
  | some p => p.2
  | none => 500

/-- A handler response after the decorator: the status code and the
JSON-serialized body, which is either the echoed call-id list or an
`{"errorMessage": ...}` object. -/
inductive ResponseBody
  | idList (ids : List String)
  | errorMessage (msg : String)
  deriving DecidableEq, Repr

/-- The wrapped handler's HTTP-style response. -/
structure HttpResponse where
  statusCode : Nat
  body : ResponseBody
  deriving DecidableEq, Repr

/-- The error handling of the `lambda_handler` decorator (decorater.py
lines 45-67): a `(status, body)` result passes through; a pydantic
`ValidationError` yields 400 with the exception's message; any other
exception is mapped through `error_status`, and the body's
`errorMessage` is the exception's message unless the status is 500, in
which case it is the fixed generic message. -/
def lambda_handler_wrap (m : List (ExnClass × Nat))
    (result : Except PyExn (Nat × List String)) : HttpResponse :=
  match result with
  | .ok (status_code, body) => ⟨status_code, .idList body⟩
  | .error e =>
      if e.cls = .pydanticValidation then
        ⟨400, .errorMessage e.msg⟩
      else
        let status_code := resolve_status m e.cls
        ⟨status_code,
          .errorMessage (if status_code ≠ 500 then e.msg else "An internal error occurred.")⟩

/-- One recorded invocation of an external adapter: the store's
`write_batch` or the queue's `send_message_batch`. -/
inductive Effect
  | dynamoWrite (table : String) (items : List TranscribeOnRequestJob)
  | sqsSend (queue_url : String) (messages : List SqsMessage)
  deriving DecidableEq, Repr

/-- Whether an effect is a queue send. -/
def Effect.isSqsSend : Effect → Bool
  | .sqsSend _ _ => true
  | _ => false

/-- Whether an effect is a durable-store batch write. -/
def Effect.isDynamoWrite : Effect → Bool
  | .dynamoWrite _ _ => true
  | _ => false

/-- The handler's environment: configuration read from environment
variables, the per-request identity and randomness, and the three
external collaborators (search index, durable store, work queue) as
functions returning either a value or a raised exception. -/
structure HandlerEnv where
  es_index : String
  status_table : String
  days_to_expire : Nat
  audio_source_bucket : String
  audio_source_prefix : String
  sqs_queue_url : String
  user_email : String
  access_query : AccessQuery
  uuid4_str : String
  now : PyDatetime
  epoch_now : Nat
  search : String → SearchQuery → Except PyExn ESResponse
  write_batch : String → List TranscribeOnRequestJob → Except PyExn Unit
  send_message_batch : String → List SqsMessage → Except PyExn Unit

/-- The job-record batch the handler writes: `OnRequestJobUpdater` run on
the generated job id. -/
def handler_items (env : HandlerEnv) (call_ids : List String) : List TranscribeOnRequestJob :=
  OnRequestJobUpdater.run env.epoch_now (generate_job_id env.uuid4_str env.now)
    call_ids env.user_email env.days_to_expire

/-- The messages the publisher sends for a given list of hits:
`__create_on_request_events` followed by `to_sqs_message`
(publisher.py lines 65-103). -/
def publisher_messages (env : HandlerEnv) (job_id : String) (hits : List ESHit) :
    List SqsMessage :=
  ((get_metadata_from_es env.audio_source_bucket (HandlerEnv.audio_source_prefix env) hits).map
    (fun call_metadata =>
      OnRequestEventModel.mk (some job_id) env.user_email call_metadata)).map
    OnRequestEventModel.to_sqs_message

/-- The body of `handler` (handler.py lines 100-147): validate the call
ids, generate a job id, write the job-record batch to the durable store,
re-query the index for metadata and send one message per hit to the
queue, then return `(201, call_ids)`.  The second component is the trace
of adapter invocations, in order. -/
def handler_body (env : HandlerEnv) (call_ids : List String) :
    Except PyExn (Nat × List String) × List Effect :=
  match validate_calls_id_es env.search env.es_index call_ids env.access_query with
  | .error e => (.error e, [])
  | .ok _ =>
      let job_id := generate_job_id env.uuid4_str env.now
      let items := handler_items env call_ids
      match env.write_batch env.status_table items with
      | .error e => (.error e, [.dynamoWrite env.status_table items])
      | .ok _ =>
          match env.search env.es_index (prepare_es_query call_ids) with
          | .error e => (.error e, [.dynamoWrite env.status_table items])
          | .ok es_response =>
              let messages := publisher_messages env job_id es_response.hits
              match env.send_message_batch env.sqs_queue_url messages with
              | .error e =>
                  (.error e,
                    [.dynamoWrite env.status_table items,
                     .sqsSend env.sqs_queue_url messages])
              | .ok _ =>
                  (.ok (201, call_ids),
                    [.dynamoWrite env.status_table items,
                     .sqsSend env.sqs_queue_url messages])

/-- The decorated handler: `handler_body` wrapped by `lambda_handler`
with the handler's `error_status` table, paired with the trace of
adapter invocations. -/
def run_handler (env : HandlerEnv) (call_ids : List String) :
    HttpResponse × List Effect :=
  let result := handler_body env call_ids
  (lambda_handler_wrap error_status_map result.1, result.2)

/-- Concrete call-record source fields used by the concrete instances
below. -/
def sample_source (fname : String) : CallSource :=
  { original_contact_id := "oc-1"
  , duration := 60
  , total_hold_time := 5
  , start_datetime := "2026-01-02T03:00:00"
  , end_datetime := "2026-01-02T03:01:00"
  , agent_pbxid := "pbx-1"
  , extension := "100"
  , agent_full_name := "Agent One"
  , agent_email := "agent@example.com"
  , language := "en"
  , region := "ca"
  , distributor_number := "d-1"
  , call_context := "ctx"
  , line_of_business := "lob"
  , video_recorded := false
  , customer_phone_number := "555-0100"
  , call_direction := "inbound"
  , organization_unit := "ou"
  , queue_id := "q-1"
  , company_number := "c-1"
  , filename_prefix := fname
  , created_at_ := "2026-01-01T00:00:00" }

/-- A concrete environment for the orchestrator instances below. -/
def base_env : HandlerEnv :=
  { es_index := "calls"
  , status_table := "status-table"
  , days_to_expire := 7
  , audio_source_bucket := "audio-bucket"
  , audio_source_prefix := "calls/audio"
  , sqs_queue_url := "queue-url"
  , user_email := "user@example.com"
  , access_query := ⟨"acl"⟩
  , uuid4_str := "0a1b2c3d-4e5f-4a6b-8c7d-9e8f0a1b2c3d"
  , now := ⟨2026, 1, 2, 3, 4, 5⟩
  , epoch_now := 1767323045
  , search := fun _ _ => .ok ⟨[]⟩
  , write_batch := fun _ _ => .ok ()
  , send_message_batch := fun _ _ => .ok () }

/-- An environment whose durable-store batch write always raises. -/
def env_write_fails : HandlerEnv :=
  { base_env with write_batch := fun _ _ => .error ⟨.other, "dynamodb down"⟩ }

/-- An environment where the validation query succeeds (returning the one
requested document) but the publisher's metadata query is answered with
HTTP 403: the two queries are distinguished by their `_source` field
list, exactly as the code builds them. -/
def env_pub_forbidden : HandlerEnv :=
  { base_env with
      search := fun _ q =>
        if q._source = ["_id"] then
          .ok ⟨[⟨"7654321", sample_source "f7654321"⟩]⟩
        else
          .error ⟨.accessDenied, "403 Forbidden: Access to Elasticsearch denied."⟩ }

/-- An environment where both queries return exactly one hit per
requested call id, for the two ids of the spec's happy-path example. -/
def env_happy : HandlerEnv :=
  { base_env with
      search := fun _ _ =>
        .ok ⟨[⟨"7654321", sample_source "f7654321"⟩,
              ⟨"1234567", sample_source "f1234567"⟩]⟩ }

/-- A search double returning a single hit, used to instantiate the
validation-completeness theorem. -/
def search_one_hit : String → SearchQuery → Except PyExn ESResponse :=
  fun _ _ => .ok ⟨[⟨"7654321", sample_source "f7654321"⟩]⟩

/-- An environment whose search index answers every query with HTTP 403
(raised as `AccessDeniedError` by the search client). -/
def env_es_denied : HandlerEnv :=
  { base_env with
      search := fun _ _ =>
        .error ⟨.accessDenied, "403 Forbidden: Access to Elasticsearch denied."⟩ }

theorem list_contains_iff (l : List String) (x : String) :
    l.contains x = true ↔ x ∈ l := List.elem_iff

theorem pySetEqB_true_iff (l1 l2 : List String) :
    pySetEqB l1 l2 = true ↔ l1.toFinset = l2.toFinset := by
  unfold pySetEqB
  rw [Bool.and_eq_true, List.all_eq_true, List.all_eq_true]
  constructor
  · rintro ⟨h1, h2⟩
    ext a
    simp only [List.mem_toFinset]
    exact ⟨fun ha => (list_contains_iff l2 a).mp (h1 a ha),
           fun ha => (list_contains_iff l1 a).mp (h2 a ha)⟩
  · intro h
    refine ⟨fun a ha => ?_, fun a ha => ?_⟩
    · refine (list_contains_iff l2 a).mpr ?_
      rw [← List.mem_toFinset, ← h, List.mem_toFinset]
      exact ha
    · refine (list_contains_iff l1 a).mpr ?_
      rw [← List.mem_toFinset, h, List.mem_toFinset]
      exact ha

theorem pySetDiff_toFinset (l1 l2 : List String) :
    (pySetDiff l1 l2).toFinset = l1.toFinset \ l2.toFinset := by
  ext a
  simp only [pySetDiff, List.mem_toFinset, List.mem_filter, List.mem_dedup,
    Finset.mem_sdiff, Bool.not_eq_true']
  rw [← Bool.not_eq_true, list_contains_iff]

theorem pySetDiff_nodup (l1 l2 : List String) : (pySetDiff l1 l2).Nodup :=
  l1.nodup_dedup.filter _

theorem pySetDiff_eq_nil_of_subset (l1 l2 : List String)
    (h : l1.toFinset ⊆ l2.toFinset) : pySetDiff l1 l2 = [] := by
  rw [pySetDiff, List.filter_eq_nil_iff]
  intro a ha
  have ha2 : a ∈ l2 := by
    rw [← List.mem_toFinset]
    exact h (by rw [List.mem_toFinset]; exact (List.mem_dedup.mp ha))
  simp [list_contains_iff, ha2]

theorem validateHits_of_ne (call_ids es_call_ids : List String)
    (h : es_call_ids.toFinset ≠ call_ids.toFinset) :
    validateHits call_ids es_call_ids =
      .error ⟨.validationErr,
        "Invalid call_ids: " ++ pyReprStrList (pySetDiff call_ids es_call_ids)⟩ := by
  have hb : pySetEqB es_call_ids call_ids = false := by
    rw [← Bool.not_eq_true]
    intro hc
    exact h ((pySetEqB_true_iff es_call_ids call_ids).mp hc)
  simp [validateHits, hb]

theorem validateHits_of_eq (call_ids es_call_ids : List String)
    (h : es_call_ids.toFinset = call_ids.toFinset) :
    validateHits call_ids es_call_ids = .ok () := by
  have hb : pySetEqB es_call_ids call_ids = true :=
    (pySetEqB_true_iff es_call_ids call_ids).mpr h
  simp [validateHits, hb]

/-- C1: for every requested call-identifier list whose set form is `S`,
if the validation search returns hits whose id set `H` satisfies
`H ⊆ S` and `H ≠ S`, then `validate_calls_id_es` raises
`ValidationError` reporting exactly the missing identifiers `S \ H`
(deduplicated; the reported list's set form is `S \ H` and it has no
duplicates); if `H = S` it returns without raising. -/
theorem validation_completeness
    (search : String → SearchQuery → Except PyExn ESResponse)
    (es_index : String) (call_ids : List String) (q : AccessQuery)
    (hits : List ESHit)
    (hsearch : search es_index (validation_query call_ids q) = .ok ⟨hits⟩)
    (hsub : (hits.map ESHit._id).toFinset ⊆ call_ids.toFinset) :
    ((hits.map ESHit._id).toFinset ≠ call_ids.toFinset →
      validate_calls_id_es search es_index call_ids q =
        .error ⟨.validationErr,
          "Invalid call_ids: " ++
            pyReprStrList (pySetDiff call_ids (hits.map ESHit._id))⟩ ∧
      (pySetDiff call_ids (hits.map ESHit._id)).toFinset =
        call_ids.toFinset \ (hits.map ESHit._id).toFinset ∧
      (pySetDiff call_ids (hits.map ESHit._id)).Nodup) ∧
    ((hits.map ESHit._id).toFinset = call_ids.toFinset →
      validate_calls_id_es search es_index call_ids q = .ok ()) := by
  constructor
  · intro hne
    refine ⟨?_, pySetDiff_toFinset _ _, pySetDiff_nodup _ _⟩
    unfold validate_calls_id_es
    rw [hsearch]
    exact validateHits_of_ne call_ids (hits.map ESHit._id) hne
  · intro heq
    unfold validate_calls_id_es
    rw [hsearch]
    exact validateHits_of_eq call_ids (hits.map ESHit._id) heq

/-- Witness for C1: with the requested ids `["7654321", "1234567"]` and a
search double returning only the document `"7654321"`, validation raises
`ValidationError` reporting the missing id `"1234567"`. -/
theorem validation_completeness_witness :
    validate_calls_id_es search_one_hit "calls" ["7654321", "1234567"] ⟨"acl"⟩ =
      .error ⟨.validationErr,
        "Invalid call_ids: " ++
          pyReprStrList (pySetDiff ["7654321", "1234567"]
            (([⟨"7654321", sample_source "f7654321"⟩] : List ESHit).map ESHit._id))⟩ :=
  ((validation_completeness search_one_hit "calls" ["7654321", "1234567"] ⟨"acl"⟩
    [⟨"7654321", sample_source "f7654321"⟩] rfl (by decide)).1 (by decide)).1

/-- C7: the search query built by the validator has its `size` parameter
equal to the length of the input call-id list, whatever the list's
contents and the access filter. -/
theorem batch_sizing_invariant (call_ids : List String) (q : AccessQuery) :
    (validation_query call_ids q).size = call_ids.length := rfl

/-- C10: `validate_calls_id_es`'s set comparison raises exactly when the
hit-id set differs from the requested-id set in either direction: it
returns without raising iff the two sets are equal; when the hits form a
strict superset of the requested set it raises with the message
`Invalid call_ids: []` (an empty missing-id list); and duplicates in the
requested list are collapsed by set semantics, so a list validates
exactly as its deduplicated form does. -/
theorem validate_set_semantics (call_ids es_call_ids : List String) :
    (validateHits call_ids es_call_ids = .ok () ↔
      es_call_ids.toFinset = call_ids.toFinset) ∧
    (call_ids.toFinset ⊂ es_call_ids.toFinset →
      validateHits call_ids es_call_ids =
        .error ⟨.validationErr, "Invalid call_ids: []"⟩) ∧
    validateHits call_ids.dedup es_call_ids = validateHits call_ids es_call_ids := by
  refine ⟨⟨fun hok => ?_, validateHits_of_eq call_ids es_call_ids⟩, fun hss => ?_, ?_⟩
  · by_contra hne
    rw [validateHits_of_ne call_ids es_call_ids hne] at hok
    exact Except.noConfusion hok
  · have hne : es_call_ids.toFinset ≠ call_ids.toFinset :=
      fun h => (hss.2 (le_of_eq h)).elim
    rw [validateHits_of_ne call_ids es_call_ids hne,
      pySetDiff_eq_nil_of_subset call_ids es_call_ids hss.1]
    rfl
  · by_cases heq : es_call_ids.toFinset = call_ids.toFinset
    · have heq' : es_call_ids.toFinset = call_ids.dedup.toFinset := by
        rw [heq]; ext a; simp [List.mem_dedup]
      rw [validateHits_of_eq call_ids es_call_ids heq,
        validateHits_of_eq call_ids.dedup es_call_ids heq']
    · have hne' : es_call_ids.toFinset ≠ call_ids.dedup.toFinset := by
        intro h
        apply heq
        rw [h]; ext a; simp [List.mem_dedup]
      rw [validateHits_of_ne call_ids es_call_ids heq,
        validateHits_of_ne call_ids.dedup es_call_ids hne']
      have hdiff : pySetDiff call_ids.dedup es_call_ids = pySetDiff call_ids es_call_ids := by
        unfold pySetDiff
        rw [List.dedup_idem]
      rw [hdiff]

/-- Witness for C10: with requested ids `["7654321"]` and hits
`["7654321", "1234567"]` (a strict superset), the comparison raises with
an empty missing-id list. -/
theorem validate_set_semantics_witness :
    validateHits ["7654321"] ["7654321", "1234567"] =
      .error ⟨.validationErr, "Invalid call_ids: []"⟩ :=
  (validate_set_semantics ["7654321"] ["7654321", "1234567"]).2.1 (by decide)

/-- C5 counterexample: an HTTP 304 response is not 2xx, yet
`ElasticSearchV2.__request` raises nothing (`raise_for_status` only
raises for 400-599) and the response is returned. -/
theorem es_error_classification_counterexample :
    ElasticSearchV2.requestRaw (.response ⟨304, "not modified"⟩) =
      .ok ⟨304, "not modified"⟩ ∧ (304 < 200 ∨ 299 < 304) :=
  ⟨rfl, by omega⟩

/-- C5 (amended): for every request issued by `ElasticSearchV2`, an HTTP
403 response raises `AccessDeniedError`; every other 4xx or 5xx response
raises `ElasticsearchFailedRequestError` carrying the original status
and body; every other exception (serialization, connection) also raises
`ElasticsearchFailedRequestError`; a response whose status is outside
400-599 raises nothing and the response (whose parsed body the public
methods return) is passed back. -/
theorem es_error_classification (outcome : RequestOutcome) :
    (∀ msg, outcome = .exn msg →
      ElasticSearchV2.requestRaw outcome =
        .error ⟨.esFailed, "Error with Elasticsearch server: " ++ msg⟩) ∧
    (∀ r, outcome = .response r → r.status_code = 403 →
      ElasticSearchV2.requestRaw outcome =
        .error ⟨.accessDenied, "403 Forbidden: Access to Elasticsearch denied."⟩) ∧
    (∀ r, outcome = .response r → 400 ≤ r.status_code → r.status_code < 600 →
      r.status_code ≠ 403 →
      ElasticSearchV2.requestRaw outcome =
        .error ⟨.esFailed,
          "HTTP error " ++ toString r.status_code ++ " from Elasticsearch: " ++ r.text⟩) ∧
    (∀ r, outcome = .response r → (r.status_code < 400 ∨ 600 ≤ r.status_code) →
      ElasticSearchV2.requestRaw outcome = .ok r) := by
  refine ⟨fun msg hmsg => by rw [hmsg]; rfl, fun r hr h403 => ?_,
    fun r hr h4 h6 hne => ?_, fun r hr hout => ?_⟩
  · rw [hr]
    simp [ElasticSearchV2.requestRaw, raise_for_status_raises, h403]
  · rw [hr]
    simp only [ElasticSearchV2.requestRaw, raise_for_status_raises]
    rw [if_pos (by simp [h4, h6]), if_neg hne]
  · rw [hr]
    simp only [ElasticSearchV2.requestRaw, raise_for_status_raises]
    rw [if_neg (by simp; omega)]

/-- Witness for C5 (amended): a 403 response raises `AccessDeniedError`. -/
theorem es_error_classification_witness :
    ElasticSearchV2.requestRaw (.response ⟨403, "denied"⟩) =
      .error ⟨.accessDenied, "403 Forbidden: Access to Elasticsearch denied."⟩ :=
  (es_error_classification (.response ⟨403, "denied"⟩)).2.1 ⟨403, "denied"⟩ rfl rfl

/-- C6: for every call to the job-state writer with job id `j`, call-id
list `L`, user email `e` and expiry `d`, the batch contains exactly one
record per element of `L`, and every record has `jobId j`, `userId e`,
status `IN_PROGRESS`, and the batch-wide pair of timestamps
`lastUpdate = creation time` and `expireAt = creation time + d days`
(in epoch seconds). -/
theorem job_record_batch_uniformity (epoch_now : Nat) (job_id : String)
    (call_ids : List String) (user_email : String) (days_to_expire : Nat) :
    (OnRequestJobUpdater.run epoch_now job_id call_ids user_email days_to_expire).map
      TranscribeOnRequestJob.callId = call_ids ∧
    ∀ r ∈ OnRequestJobUpdater.run epoch_now job_id call_ids user_email days_to_expire,
      r.jobId = job_id ∧ r.userId = user_email ∧
      r.status = TranscribeJobStatus.IN_PROGRESS ∧
      r.lastUpdate = convert_datetime_to_epoch_time epoch_now ∧
      r.expireAt = create_epoch_time_to_live epoch_now days_to_expire := by
  constructor
  · rw [OnRequestJobUpdater.run, List.map_map]
    exact List.map_id call_ids
  · intro r hr
    simp only [OnRequestJobUpdater.run, List.mem_map] at hr
    obtain ⟨c, _, rfl⟩ := hr
    exact ⟨rfl, rfl, rfl, rfl, rfl⟩

/-- C8: every job id produced by `generate_job_id` from a canonical UUID4
string is the literal prefix `job_`, then the first 8 characters of the
UUID (exactly 8 hexadecimal characters), an underscore, and the current
UTC time formatted as ISO-8601 with seconds precision. -/
theorem job_id_format (uuid4_str : String) (now : PyDatetime)
    (h : isCanonicalUUID4Str uuid4_str = true) :
    generate_job_id uuid4_str now =
      "job_" ++ uuid4_str.take 8 ++ "_" ++ PyDatetime.isoformatSeconds now ∧
    (uuid4_str.take 8).length = 8 ∧
    (uuid4_str.take 8).data.all isHexDigitChar = true := by
  simp only [isCanonicalUUID4Str, Bool.and_eq_true, decide_eq_true_eq] at h
  obtain ⟨⟨⟨⟨⟨⟨⟨⟨⟨hlen, hhex8⟩, _⟩, _⟩, _⟩, _⟩, _⟩, _⟩, _⟩, _⟩ := h
  refine ⟨rfl, ?_, ?_⟩
  · rw [String.take_eq]
    show (uuid4_str.data.take 8).length = 8
    rw [List.length_take]
    omega
  · rw [String.take_eq]
    exact hhex8

/-- Witness for C8: a concrete canonical UUID4 string and datetime. -/
theorem job_id_format_witness :
    generate_job_id "0a1b2c3d-4e5f-4a6b-8c7d-9e8f0a1b2c3d" ⟨2026, 1, 2, 3, 4, 5⟩ =
      "job_" ++ ("0a1b2c3d-4e5f-4a6b-8c7d-9e8f0a1b2c3d" : String).take 8 ++ "_" ++
        PyDatetime.isoformatSeconds ⟨2026, 1, 2, 3, 4, 5⟩ ∧
    (("0a1b2c3d-4e5f-4a6b-8c7d-9e8f0a1b2c3d" : String).take 8).length = 8 ∧
    (("0a1b2c3d-4e5f-4a6b-8c7d-9e8f0a1b2c3d" : String).take 8).data.all
      isHexDigitChar = true :=
  job_id_format "0a1b2c3d-4e5f-4a6b-8c7d-9e8f0a1b2c3d" ⟨2026, 1, 2, 3, 4, 5⟩ (by decide)

/-- C9: for every exception caught by the `lambda_handler` decorator, if
the mapped status code is 500 the response body is exactly the generic
message `An internal error occurred.` (the exception's own message is
not included), and for every non-500 error status the body's
`errorMessage` is the exception's message. -/
theorem internal_error_sanitization (m : List (ExnClass × Nat)) (e : PyExn) :
    ((lambda_handler_wrap m (.error e)).statusCode = 500 →
      (lambda_handler_wrap m (.error e)).body =
        .errorMessage "An internal error occurred.") ∧
    ((lambda_handler_wrap m (.error e)).statusCode ≠ 500 →
      (lambda_handler_wrap m (.error e)).body = .errorMessage e.msg) := by
  unfold lambda_handler_wrap
  by_cases hp : e.cls = .pydanticValidation
  · simp [hp]
  · by_cases h5 : resolve_status m e.cls = 500
    · simp [hp, h5]
    · simp [hp, h5]

/-- Witness for C9: an `SQSError` maps to 500 and its message is replaced
by the generic one. -/
theorem internal_error_sanitization_witness :
    (lambda_handler_wrap error_status_map (.error ⟨.sqs, "boom"⟩)).body =
      .errorMessage "An internal error occurred." :=
  (internal_error_sanitization error_status_map ⟨.sqs, "boom"⟩).1 (by decide)

/-- C2: in every execution of the orchestrator in which the job-state
write (the `OnRequestJobUpdater` call) raises, the publisher is never
invoked: the execution's trace contains no queue send. -/
theorem fail_fast_ordering (env : HandlerEnv) (call_ids : List String) (e : PyExn)
    (h : env.write_batch env.status_table (handler_items env call_ids) = .error e) :
    ((run_handler env call_ids).2.filter Effect.isSqsSend) = [] := by
  unfold run_handler handler_body
  cases hval : validate_calls_id_es env.search env.es_index call_ids env.access_query with
  | error e' => simp
  | ok u =>
      cases u
      simp [h, Effect.isSqsSend]

/-- Witness for C2: a concrete environment whose store write raises; the
trace contains no queue send. -/
theorem fail_fast_ordering_witness :
    ((run_handler env_write_fails []).2.filter Effect.isSqsSend) = [] :=
  fail_fast_ordering env_write_fails [] ⟨.other, "dynamodb down"⟩ rfl

/-- C3 counterexample: an execution in which a search-index query (the
publisher's metadata query) raises AccessDenied, the orchestrator
returns 403, and yet a job record batch was already written to the
durable store — contradicting the claim that no job record is written in
any execution whose search raises AccessDenied. -/
theorem access_denied_403_counterexample :
    env_pub_forbidden.search "calls" (prepare_es_query ["7654321"]) =
      .error ⟨.accessDenied, "403 Forbidden: Access to Elasticsearch denied."⟩ ∧
    (run_handler env_pub_forbidden ["7654321"]).1.statusCode = 403 ∧
    ((run_handler env_pub_forbidden ["7654321"]).2.filter Effect.isDynamoWrite) ≠ [] := by
  refine ⟨rfl, rfl, by decide⟩

/-- C3 (amended): for every request in which the validation-step search
query raises AccessDenied, the orchestrator returns a response with
statusCode 403 and the trace is empty: no job record is written (and no
message is sent) in that execution.  (When the publisher's later
metadata query raises AccessDenied the response is still 403, but the
job records have already been written.) -/
theorem access_denied_403 (env : HandlerEnv) (call_ids : List String) (msg : String)
    (h : env.search env.es_index (validation_query call_ids env.access_query) =
      .error ⟨.accessDenied, msg⟩) :
    (run_handler env call_ids).1.statusCode = 403 ∧
    (run_handler env call_ids).2 = [] := by
  unfold run_handler handler_body validate_calls_id_es
  rw [h]
  exact ⟨rfl, rfl⟩

/-- Witness for C3 (amended): a concrete environment whose index denies
the validation query. -/
theorem access_denied_403_witness :
    (run_handler env_es_denied ["7654321"]).1.statusCode = 403 ∧
    (run_handler env_es_denied ["7654321"]).2 = [] :=
  access_denied_403 env_es_denied ["7654321"]
    "403 Forbidden: Access to Elasticsearch denied." rfl

/-- C4: if the search index returns exactly one hit per requested call id
for both the validation query and the publisher's metadata query, and
the store write and queue batch-send succeed, the handler returns
statusCode 201 with the requested call-id list as body, writes exactly
one durable job record per call id all sharing the one generated jobId,
and sends exactly one queue message per call id whose `sid` equals that
call's id and whose `wav_url` is `s3://{bucket}/{prefix}/{filename}.wav`
built from that record's filename field. -/
theorem end_to_end_happy_path (env : HandlerEnv) (call_ids : List String)
    (vhits phits : List ESHit)
    (hnodup : call_ids.Nodup)
    (hv : env.search env.es_index (validation_query call_ids env.access_query) =
      .ok ⟨vhits⟩)
    (hvids : (vhits.map ESHit._id).Perm call_ids)
    (hp : env.search env.es_index (prepare_es_query call_ids) = .ok ⟨phits⟩)
    (hpids : (phits.map ESHit._id).Perm call_ids)
    (hw : env.write_batch env.status_table (handler_items env call_ids) = .ok ())
    (hs : env.send_message_batch env.sqs_queue_url
      (publisher_messages env (generate_job_id env.uuid4_str env.now) phits) =
      .ok ()) :
    run_handler env call_ids =
      (⟨201, .idList call_ids⟩,
        [ .dynamoWrite env.status_table (handler_items env call_ids)
        , .sqsSend env.sqs_queue_url
            (publisher_messages env (generate_job_id env.uuid4_str env.now) phits) ]) ∧
    (handler_items env call_ids).map TranscribeOnRequestJob.callId = call_ids ∧
    (∀ r ∈ handler_items env call_ids,
      r.jobId = generate_job_id env.uuid4_str env.now) ∧
    publisher_messages env (generate_job_id env.uuid4_str env.now) phits =
      phits.map (fun d =>
        { record :=
            { toCallSource := d._source
            , sid := some d._id
            , wav_url := some (build_wav_url env.audio_source_bucket
                (HandlerEnv.audio_source_prefix env)
                (CallSource.filename_prefix d._source)) }
        , on_request_job_id := some (generate_job_id env.uuid4_str env.now)
        , on_request_job_user := env.user_email }) ∧
    ((publisher_messages env (generate_job_id env.uuid4_str env.now) phits).map
      (fun msg => CallMetadata.sid (SqsMessage.record msg))).Perm
      (call_ids.map some) := by
  have hvset : (vhits.map ESHit._id).toFinset = call_ids.toFinset := by
    ext a
    simp only [List.mem_toFinset]
    exact hvids.mem_iff
  have hval : validate_calls_id_es env.search env.es_index call_ids env.access_query =
      .ok () := by
    unfold validate_calls_id_es
    rw [hv]
    exact validateHits_of_eq call_ids (vhits.map ESHit._id) hvset
  have hmsgs : publisher_messages env (generate_job_id env.uuid4_str env.now) phits =
      phits.map (fun d =>
        { record :=
            { toCallSource := d._source
            , sid := some d._id
            , wav_url := some (build_wav_url env.audio_source_bucket
                (HandlerEnv.audio_source_prefix env)
                (CallSource.filename_prefix d._source)) }
        , on_request_job_id := some (generate_job_id env.uuid4_str env.now)
        , on_request_job_user := env.user_email }) := by
    simp only [publisher_messages, get_metadata_from_es, List.map_map]
    rfl
  refine ⟨?_, ?_, ?_, hmsgs, ?_⟩
  · simp only [run_handler, handler_body, hval, hw, hp, hs, lambda_handler_wrap]
  · rw [handler_items, OnRequestJobUpdater.run, List.map_map]
    exact List.map_id call_ids
  · intro r hr
    simp only [handler_items, OnRequestJobUpdater.run, List.mem_map] at hr
    obtain ⟨c, _, rfl⟩ := hr
    rfl
  · rw [hmsgs, List.map_map]
    have : ((fun msg => CallMetadata.sid (SqsMessage.record msg)) ∘
        (fun d : ESHit =>
          ({ record :=
              { toCallSource := d._source
              , sid := some d._id
              , wav_url := some (build_wav_url env.audio_source_bucket
                  (HandlerEnv.audio_source_prefix env)
                  (CallSource.filename_prefix d._source)) }
           , on_request_job_id := some (generate_job_id env.uuid4_str env.now)
           , on_request_job_user := env.user_email } : SqsMessage))) =
        (fun d : ESHit => some d._id) := rfl
    rw [this, show (fun d : ESHit => some d._id) = some ∘ ESHit._id from rfl,
      ← List.map_map]
    exact hpids.map some

/-- Witness for C4: the spec's two-id example against a concrete
environment whose index returns exactly one hit per requested id for
both queries; the handler returns 201 echoing the ids and the trace is
one store batch write followed by one queue batch send. -/
theorem end_to_end_happy_path_witness :
    run_handler env_happy ["7654321", "1234567"] =
      (⟨201, .idList ["7654321", "1234567"]⟩,
        [ .dynamoWrite env_happy.status_table
            (handler_items env_happy ["7654321", "1234567"])
        , .sqsSend env_happy.sqs_queue_url
            (publisher_messages env_happy
              (generate_job_id env_happy.uuid4_str env_happy.now)
              [⟨"7654321", sample_source "f7654321"⟩,
               ⟨"1234567", sample_source "f1234567"⟩]) ]) :=
  (end_to_end_happy_path env_happy ["7654321", "1234567"]
    [⟨"7654321", sample_source "f7654321"⟩, ⟨"1234567", sample_source "f1234567"⟩]
    [⟨"7654321", sample_source "f7654321"⟩, ⟨"1234567", sample_source "f1234567"⟩]
    (by decide) rfl (by decide) rfl (by decide) rfl rfl).1
